import Mathlib

/-!
Verification development for the tatum-js custodial-wallet / Flow / XRP-KMS
slice of the SDK.  Definitions shallowly embed the TypeScript source files:

* `src/packages/shared/abstract-sdk/src/lib/abstract.sdk.ts`
  (custodial prepare/send dispatch, `approveFromCustodialWallet`)
* `src/unnamed/part_001`
  (Flow `flowTxService`: `sign`, `getPrivateKey`, `sendTransaction`,
  `_sendTransaction`, the address constant tables; and `xrpKmsService.sign`)

External collaborators (web3 decimals lookup, mnemonic derivation, the
elliptic ECDSA primitive, SHA3, `fcl`, the hosted API) are passed as explicit
function parameters.  JavaScript number/`BigNumber` semantics relevant to the
claims are modelled exactly over `ℚ` (binary64 rounding for `parseFloat` /
`toFixed(8)`, BigNumber base-16 printing with 20 fractional places and
half-up rounding).
-/

namespace Tatum

/-! ## JavaScript truthiness of optional fields -/

/-- Truthiness of an optional JS string: present and non-empty. -/
def truthyStr : Option String → Bool
  | none => false
  | some s => s ≠ ""

/-- Truthiness of an optional JS number (integer-valued): present and nonzero. -/
def truthyInt : Option Int → Bool
  | none => false
  | some i => i ≠ 0

/-! ## Hexadecimal printing (lowercase, as `Buffer.toString('hex')` and
`BigNumber.toString(16)` produce) -/

/-- Lowercase hexadecimal digits of a natural number (`"0"` for zero). -/
def hexNat (n : Nat) : String :=
  String.mk (Nat.toDigits 16 n)

/-- Strip trailing `'0'` characters from a digit list. -/
def stripTrailingZeros (l : List Char) : List Char :=
  (l.reverse.dropWhile (· = '0')).reverse

/-- Left-pad a character list with `'0'` up to width `w`. -/
def padZeros (w : Nat) (l : List Char) : List Char :=
  List.replicate (w - l.length) '0' ++ l

/-! ## BigNumber.toString(16) model

BigNumber.js prints a value in base 16 exactly when it is an integer; a
fractional part is rounded to `DECIMAL_PLACES` (default 20) base-16 places
with `ROUND_HALF_UP` (half away from zero) and trailing zeros are dropped. -/

/-- Round half away from zero (for nonnegative arguments: half up). -/
def halfUp (q : ℚ) : ℤ := ⌊q + 1/2⌋

/-- BigNumber base-16 rendering of a nonnegative rational. -/
def bnToString16Pos (q : ℚ) : String :=
  let i : Nat := (⌊q⌋).toNat
  let frac : ℚ := q - (i : ℚ)
  if frac = 0 then hexNat i
  else
    let m : Nat := (halfUp (frac * 16 ^ 20)).toNat
    if 16 ^ 20 ≤ m then hexNat (i + 1)
    else if m = 0 then hexNat i
    else hexNat i ++ "." ++ String.mk (stripTrailingZeros (padZeros 20 (Nat.toDigits 16 m)))

/-- BigNumber base-16 rendering of a rational (sign handled as BigNumber does). -/
def bnToString16 (q : ℚ) : String :=
  if q < 0 then "-" ++ bnToString16Pos (-q) else bnToString16Pos q

/-! ## abstract.sdk.ts: custodial wallet operations -/

/-- Request body of `approveFromCustodialWallet`
(`ChainApproveCustodialTransfer`).  `amount` and `tokenId` carry the numeric
value of the decimal string (`none` models an absent field). -/
structure ChainApproveCustodialTransfer where
  tokenAddress : String
  contractType : Nat
  spender : String
  amount : Option ℚ
  tokenId : Option Nat
  custodialAddress : String
  signatureId : Option String
  fromPrivateKey : Option String
deriving DecidableEq, Repr

/-- A parameter of the smart-contract `approve(...)` call. -/
inductive SCParam
  | str (s : String)
  | nat (n : Nat)
deriving DecidableEq, Repr

/-- Result of the custodial approve preparation: the `approve` call data and
the request body as it stands after the function ran (the source executes
`delete body.amount` after reading it). -/
structure ApprovePrepared where
  params : List SCParam
  methodName : String
  contractAddress : String
  bodyAfter : ChainApproveCustodialTransfer
deriving Repr

/-- Embeds `approveFromCustodialWallet` (abstract.sdk.ts lines 109-136).
`decimalsOf` stands for the on-chain `evmBasedUtils.decimals` lookup against
the token contract.  ContractType `0` is FUNGIBLE_TOKEN; for it the decimals
are fetched, otherwise `0` is used.  The amount parameter is
`0x` ++ BigNumber((amount or 0) * 10^decimals).toString(16). -/
def approveFromCustodialWallet (decimalsOf : String → Nat)
    (body : ChainApproveCustodialTransfer) : ApprovePrepared :=
  let decimals : Nat := if body.contractType = 0 then decimalsOf body.tokenAddress else 0
  let params : List SCParam :=
    [ .str body.tokenAddress.trim,
      .nat body.contractType,
      .str body.spender,
      .str ("0x" ++ bnToString16 ((body.amount.getD 0) * (10 : ℚ) ^ decimals)),
      .str ("0x" ++ bnToString16 ((body.tokenId.getD 0 : ℚ))) ]
  { params := params
    methodName := "approve"
    contractAddress := body.custodialAddress
    bodyAfter := { body with amount := none } }

/-- Request body of the custodial wallet batch generation
(`ChainGenerateCustodialWalletBatch`); `feesCovered` / `signatureId` are the
optional discriminating fields checked with the JS `in` operator. -/
structure ChainGenerateCustodialWalletBatch where
  feesCovered : Option Bool
  signatureId : Option String
  owner : String
deriving DecidableEq, Repr

/-- The three dispatch targets of `custodial.send.custodialWalletBatch`. -/
inductive CustodialBatchRoute
  | hostedApi
  | kms
  | localBroadcast (txData : String)
deriving DecidableEq, Repr

/-- Embeds `custodial.send.custodialWalletBatch` (abstract.sdk.ts lines
293-307): `'feesCovered' in body` routes to `generateCustodialBatch` (the
hosted API); else `'signatureId' in body` routes to
`GasPumpService.generateCustodialWalletBatch` (KMS); else the local
`custodialWalletBatch` build feeds `broadcastFunction`.  The local build is
abstracted as `prepare`. -/
def custodialWalletBatchSend (prepare : ChainGenerateCustodialWalletBatch → String)
    (body : ChainGenerateCustodialWalletBatch) : CustodialBatchRoute :=
  if body.feesCovered.isSome then .hostedApi
  else if body.signatureId.isSome then .kms
  else .localBroadcast (prepare body)

/-- Request body of the custodial transfer (`ChainTransferCustodialWallet`);
only the fields the send dispatch inspects are kept. -/
structure ChainTransferCustodialWallet where
  signatureId : Option String
  address : String
  recipient : String
deriving DecidableEq, Repr

/-- Request body of the custodial batch transfer. -/
structure ChainBatchTransferCustodialWallet where
  signatureId : Option String
  address : String
deriving DecidableEq, Repr

/-- The two dispatch targets of the custodial transfer/batch/approve send
operations. -/
inductive CustodialSendRoute
  | kms
  | localBroadcast (txData : String)
deriving DecidableEq, Repr

/-- Embeds `custodial.send.transferFromCustodialWallet` (abstract.sdk.ts
lines 237-249): a truthy `signatureId` routes to
`GasPumpService.transferCustodialWallet`, else the local preparation feeds
`broadcastFunction`. -/
def transferFromCustodialWalletSend (prepare : ChainTransferCustodialWallet → String)
    (body : ChainTransferCustodialWallet) : CustodialSendRoute :=
  if truthyStr body.signatureId then .kms
  else .localBroadcast (prepare body)

/-- Embeds `custodial.send.batchTransferFromCustodialWallet` (abstract.sdk.ts
lines 257-269). -/
def batchTransferFromCustodialWalletSend
    (prepare : ChainBatchTransferCustodialWallet → String)
    (body : ChainBatchTransferCustodialWallet) : CustodialSendRoute :=
  if truthyStr body.signatureId then .kms
  else .localBroadcast (prepare body)

/-- Embeds `custodial.send.approveFromCustodialWallet` (abstract.sdk.ts lines
276-284). -/
def approveFromCustodialWalletSend
    (prepare : ChainApproveCustodialTransfer → String)
    (body : ChainApproveCustodialTransfer) : CustodialSendRoute :=
  if truthyStr body.signatureId then .kms
  else .localBroadcast (prepare body)

/-! ## IEEE-754 binary64 model for `parseFloat` / `Number.prototype.toFixed(8)`

`parseFloat` yields the binary64 double nearest (ties to even) to the exact
decimal value of the string, or NaN for a non-numeric string; `toFixed(8)`
renders the double's exact value rounded to 8 decimal places, ties picking
the larger integer.  Both are modelled exactly over `ℚ` for the normal
range, which covers every value the claims touch. -/

/-- Fuel-driven floor of the base-2 logarithm on naturals (`0` for `n ≤ 1`);
structural recursion on the fuel so that the kernel can evaluate it. -/
def log2Fuel : Nat → Nat → Nat
  | 0, _ => 0
  | fuel + 1, n => if 2 ≤ n then log2Fuel fuel (n / 2) + 1 else 0

/-- Floor of the base-2 logarithm of a natural number (`0` for `n ≤ 1`);
the fuel `n` always suffices. -/
def log2Nat (n : Nat) : Nat := log2Fuel n n

/-- Floor of the base-2 logarithm of a positive rational (0 for inputs
at most 0, which the callers exclude). -/
def floorLog2 (q : ℚ) : ℤ :=
  if q ≤ 0 then 0
  else if 1 ≤ q then (log2Nat (⌊q⌋).toNat : ℤ)
  else
    let n := log2Nat (⌊1 / q⌋).toNat
    if q = 1 / (2 : ℚ) ^ n then -(n : ℤ) else -((n : ℤ) + 1)

/-- Round to the nearest integer, ties to even. -/
def rne (q : ℚ) : ℤ :=
  let f := ⌊q⌋
  let r := q - (f : ℚ)
  if r < 1/2 then f
  else if (1 : ℚ)/2 < r then f + 1
  else if f % 2 = 0 then f else f + 1

/-- Multiply a rational by `2 ^ k` for an integer `k`. -/
def scalePow2 (q : ℚ) (k : ℤ) : ℚ :=
  if 0 ≤ k then q * (2 : ℚ) ^ k.toNat else q / (2 : ℚ) ^ (-k).toNat

/-- The binary64 double nearest to a positive rational (normal range):
round the 53-bit significand to nearest, ties to even. -/
def doubleRoundPos (q : ℚ) : ℚ :=
  let e := floorLog2 q
  scalePow2 ((rne (scalePow2 q (52 - e)) : ℚ)) (e - 52)

/-- The binary64 double nearest to a rational (normal range and zero). -/
def doubleRound (q : ℚ) : ℚ :=
  if q = 0 then 0
  else if q < 0 then -doubleRoundPos (-q)
  else doubleRoundPos q

/-- A JavaScript number: `none` is NaN, `some q` the exact (dyadic) value. -/
def JsNum := Option ℚ

/-- The decimal string in an `amount` field, abstracted to its numeric
interpretation: `num q` when the string parses to the exact value `q`,
`nonNumeric` when `parseFloat` would yield NaN. -/
inductive AmountStr
  | num (q : ℚ)
  | nonNumeric
deriving DecidableEq, Repr

/-- `parseFloat` on an amount string: the nearest binary64 value, or NaN. -/
def parseFloatJs : AmountStr → JsNum
  | .num q => some (doubleRound q)
  | .nonNumeric => none

/-- Decimal digits of a natural number. -/
def decNat (n : Nat) : String :=
  String.mk (Nat.toDigits 10 n)

/-- Decimal digits of a natural number, left-padded to width `w`. -/
def decPad (w : Nat) (n : Nat) : String :=
  String.mk (padZeros w (Nat.toDigits 10 n))

/-- `toFixed(8)` on a nonnegative rational: round `q * 10^8` to the nearest
integer, ties picking the larger, and print with 8 decimal places. -/
def toFixed8Pos (q : ℚ) : String :=
  let n : Nat := (⌊q * 10 ^ 8 + 1/2⌋).toNat
  decNat (n / 10 ^ 8) ++ "." ++ decPad 8 (n % 10 ^ 8)

/-- `Number.prototype.toFixed(8)` (values below `10^21`; NaN prints "NaN"). -/
def toFixed8 : JsNum → String
  | none => "NaN"
  | some q => if q < 0 then "-" ++ toFixed8Pos (-q) else toFixed8Pos q

/-! ## part_001: Flow transaction service -/

/-- SDK error codes appearing in the embedded slice. -/
inductive SdkErrorCode
  | KMS_CHAIN_MISMATCH
  | FLOW_MISSING_MNEMONIC
  | FLOW_MISSING_PRIVATE_KEY
deriving DecidableEq, Repr

/-- The Flow per-network constant table (source `FLOW_TESTNET_ADDRESSES` /
`FLOW_MAINNET_ADDRESSES`). -/
structure FlowAddressTable where
  FlowToken : String
  FungibleToken : String
  FUSD : String
  TatumMultiNFT : String
deriving DecidableEq, Repr

/-- Testnet constant table (part_001 lines 54-59). -/
def FLOW_TESTNET_ADDRESSES : FlowAddressTable :=
  { FlowToken := "0x7e60df042a9c0868"
    FungibleToken := "0x9a0766d93b6608b7"
    FUSD := "0xe223d8a629e49c68"
    TatumMultiNFT := "0x87fe4ebd0cddde06" }

/-- Mainnet constant table (part_001 lines 61-66). -/
def FLOW_MAINNET_ADDRESSES : FlowAddressTable :=
  { FlowToken := "0x1654653399040a61"
    FungibleToken := "0xf233dcee88fe0abe"
    FUSD := "0x3c5959b568896393"
    TatumMultiNFT := "0x354e6721564ccd2c" }

/-- Key-material fields shared by Flow request bodies
(`FlowMnemonicOrPrivateKeyOrSignatureId`). -/
structure FlowKeyMaterial where
  mnemonic : Option String
  index : Option Int
  privateKey : Option String
  signatureId : Option String
deriving DecidableEq, Repr

/-- Embeds `getPrivateKey` (part_001 lines 492-501).  `derive` stands for
`flowSdkWallet.generatePrivateKeyFromMnemonic`.  The source condition is
`if (privateKey) ... else if (mnemonic && index && index >= 0) ... else
throw FLOW_MISSING_MNEMONIC`, so `index` must be a truthy (nonzero) number
in addition to being nonnegative. -/
def getPrivateKey (derive : String → Int → String)
    (body : FlowKeyMaterial) : Except SdkErrorCode String :=
  if truthyStr body.privateKey then .ok (body.privateKey.getD "")
  else if truthyStr body.mnemonic && (truthyInt body.index && decide (0 ≤ body.index.getD 0)) then
    .ok (derive (body.mnemonic.getD "") (body.index.getD 0))
  else .error .FLOW_MISSING_MNEMONIC

/-- Request body of the Flow transfer (`TransferFlow`). -/
structure TransferFlow extends FlowKeyMaterial where
  «to» : String
  amount : AmountStr
  currency : String
  account : String
deriving DecidableEq, Repr

/-- A typed argument of a Flow transaction. -/
structure FlowArg where
  type : String
  value : String
deriving DecidableEq, Repr

/-- The unsigned Flow transfer as built by `sendTransaction` before it is
handed to `_sendTransaction`: the constants that parameterize the Cadence
template and the typed argument list. -/
structure BuiltTransferTx where
  tokenAddress : String
  tokenName : String
  tokenStorage : String
  args : List FlowArg
deriving DecidableEq, Repr

/-- Embeds the pure build part of `sendTransaction` (part_001 lines
414-430): constant selection by `(testnet, currency)` and the argument list
`[{value: parseFloat(body.amount).toFixed(8), type: 'UFix64'},
{value: body.to, type: 'Address'}]`. -/
def transferTxParams (testnet : Bool) (body : TransferFlow) : BuiltTransferTx :=
  let token :=
    if body.currency = "FLOW" then
      ( if testnet then FLOW_TESTNET_ADDRESSES.FlowToken else FLOW_MAINNET_ADDRESSES.FlowToken,
        "FlowToken", "flowToken")
    else
      ( if testnet then FLOW_TESTNET_ADDRESSES.FUSD else FLOW_MAINNET_ADDRESSES.FUSD,
        "FUSD", "fusd")
  { tokenAddress := token.1
    tokenName := token.2.1
    tokenStorage := token.2.2
    args :=
      [ { type := "UFix64", value := toFixed8 (parseFloatJs body.amount) },
        { type := "Address", value := body.«to» } ] }

/-- Embeds `sendTransaction` (part_001 lines 408-444) up to the hand-off to
`_sendTransaction`: the constants and arguments are computed, then
`const pk = await getPrivateKey(body)` gates the call (throwing
`FLOW_MISSING_MNEMONIC` on missing material), and a falsy (empty) resolved
key triggers the line-432 guard
`if (!pk) throw new FlowSdkError(FLOW_MISSING_PRIVATE_KEY)`; on success the
built transaction is submitted. -/
def sendTransaction (derive : String → Int → String) (testnet : Bool)
    (body : TransferFlow) : Except SdkErrorCode BuiltTransferTx :=
  match getPrivateKey derive body.toFlowKeyMaterial with
  | .error e => .error e
  | .ok pk =>
    if pk = "" then .error .FLOW_MISSING_PRIVATE_KEY
    else .ok (transferTxParams testnet body)

/-! ### `_sendTransaction`: submission, sealing and per-call key cleanup

The source registers a proposer-key id in `process.env` under a per-call
`keyHash` (inside `getApiSigner`'s signing callback, which `fcl.send` runs)
and `_sendTransaction` is responsible for removing it.  The model takes the
entry as it stands when `fcl.send` returns (`env0`), the outcomes of the
external calls as parameters, and returns the call's result together with
the entry's final state. -/

/-- Outcome of `fcl.send`. -/
inductive FclSendOutcome
  | ok (transactionId : String)
  | threw (e : String)
deriving DecidableEq, Repr

/-- Outcome of `fcl.tx(response).onceSealed()`: sealed without error, sealed
with an `error` field, or rejected. -/
inductive SealOutcome
  | sealedOk (events : List String)
  | sealedErr (err : String)
  | threw (e : String)
deriving DecidableEq, Repr

/-- The Flow SDK error wrapper (`FlowSdkError`). -/
inductive FlowSdkError
  | wrap (e : String)
deriving DecidableEq, Repr

/-- Result of a sealed Flow transaction (`TransactionResult`). -/
structure FlowTxResult where
  id : String
  events : List String
deriving DecidableEq, Repr

/-- Embeds `_sendTransaction` (part_001 lines 446-491).  `keyHash` is the
per-call env key (when one was passed), `env0` the registered proposer-key
entry under it as of the `fcl.send` call, `cleanupBroadcastOk` whether the
`flowSdkBlockchain.broadcast` cleanup call succeeds.  On the submission
error path the source runs `broadcast` then `delete process.env[keyHash]`
inside a nested try whose catch rethrows without deleting; on the sealing
paths the `finally` block likewise runs `broadcast` before the delete, so a
broadcast failure skips the delete and replaces the in-flight result. -/
def sendTransactionSubmit (keyHash : Option String) (env0 : Option Int)
    (sendOutcome : FclSendOutcome) (sealOutcome : SealOutcome)
    (cleanupBroadcastOk : Bool) :
    Except FlowSdkError FlowTxResult × Option Int :=
  match sendOutcome with
  | .threw e =>
    match keyHash with
    | none => (.error (.wrap e), env0)
    | some _ =>
      if cleanupBroadcastOk then (.error (.wrap e), none)
      else (.error (.wrap "cleanup broadcast failed"), env0)
  | .ok txId =>
    let sealed : Except FlowSdkError FlowTxResult :=
      match sealOutcome with
      | .sealedOk events => .ok { id := txId, events := events }
      | .sealedErr err => .error (.wrap err)
      | .threw e => .error (.wrap e)
    match keyHash with
    | none => (sealed, env0)
    | some _ =>
      if cleanupBroadcastOk then (sealed, none)
      else (.error (.wrap "cleanup broadcast failed"), env0)

/-! ### The Flow message signer -/

/-- Big-endian byte encoding of a natural number, fixed width `len`
(the model of elliptic's `toArrayLike(Buffer, 'be', 32)`). -/
def beBytes : Nat → Nat → List Nat
  | 0, _ => []
  | len + 1, n => beBytes len (n / 256) ++ [n % 256]

/-- Value of a big-endian byte list. -/
def natOfBeBytes (l : List Nat) : Nat :=
  l.foldl (fun acc b => acc * 256 + b) 0

/-- The two lowercase hex characters of one byte. -/
def byteHexChars (b : Nat) : List Char :=
  [Nat.digitChar (b / 16), Nat.digitChar (b % 16)]

/-- Lowercase hex string of a byte list (`Buffer.toString('hex')`). -/
def bytesToHex (l : List Nat) : String :=
  String.mk (l.map byteHexChars).flatten

/-- Embeds the Flow `sign` closure (part_001 lines 72-79): hash the message
with SHA3-256 (`sha3`), sign the digest with ECDSA-secp256k1 over the raw
private key (`ecSign`, returning the `(r, s)` pair), and concatenate the
32-byte big-endian encodings of `r` and `s` as hex. -/
def flowSign (ecSign : String → List Nat → Nat × Nat) (sha3 : List Nat → List Nat)
    (pk : String) (msg : List Nat) : String :=
  let signature := ecSign pk (sha3 msg)
  bytesToHex (beBytes 32 signature.1 ++ beBytes 32 signature.2)

/-! ## part_001: XRP KMS signing -/

/-- A KMS pending transaction (`PendingTransaction`), with the fields the
XRP signer reads. -/
structure PendingTransaction where
  chain : String
  serializedTransaction : String
deriving DecidableEq, Repr

/-- Embeds `xrpKmsService.sign` (part_001 lines 18-23): a pending
transaction whose chain is not `Currency.XRP` raises `KMS_CHAIN_MISMATCH`;
otherwise the vendor `rippleAPI.sign` result on the serialized transaction
and secret is returned. -/
def xrpKmsSign (vendorSign : String → String → String)
    (tx : PendingTransaction) (secret : String) : Except SdkErrorCode String :=
  if tx.chain ≠ "XRP" then .error .KMS_CHAIN_MISMATCH
  else .ok (vendorSign tx.serializedTransaction secret)

/-! ## Helper lemmas -/

/-- BigNumber prints a natural number in base 16 with no fractional part. -/
theorem bnToString16_natCast (n : Nat) : bnToString16 ((n : ℚ)) = hexNat n := by
  unfold bnToString16 bnToString16Pos
  rw [if_neg (by simp)]
  simp

/-- `beBytes` always produces exactly `len` bytes. -/
theorem beBytes_length (len n : Nat) : (beBytes len n).length = len := by
  induction len generalizing n with
  | zero => rfl
  | succ k ih => simp [beBytes, ih]

/-- Folding one more low-order byte. -/
theorem natOfBeBytes_append_one (l : List Nat) (x : Nat) :
    natOfBeBytes (l ++ [x]) = natOfBeBytes l * 256 + x := by
  simp [natOfBeBytes, List.foldl_append]

/-- Big-endian encoding round-trips for values that fit in `len` bytes. -/
theorem natOfBeBytes_beBytes (len n : Nat) (h : n < 256 ^ len) :
    natOfBeBytes (beBytes len n) = n := by
  induction len generalizing n with
  | zero =>
    have : n = 0 := by simpa using h
    simp [this, beBytes, natOfBeBytes]
  | succ k ih =>
    have hdiv : n / 256 < 256 ^ k := by
      rw [Nat.div_lt_iff_lt_mul (by norm_num)]
      calc n < 256 ^ (k + 1) := h
        _ = 256 ^ k * 256 := by ring
    rw [beBytes, natOfBeBytes_append_one, ih _ hdiv]
    omega

/-- Flattening two-character chunks doubles the length. -/
theorem byteHexChars_flatten_length (l : List Nat) :
    ((l.map byteHexChars).flatten).length = 2 * l.length := by
  induction l with
  | nil => rfl
  | cons b t ih =>
    simp [byteHexChars] at ih ⊢
    omega

/-- Each byte yields exactly two hex characters. -/
theorem bytesToHex_length (l : List Nat) : (bytesToHex l).length = 2 * l.length :=
  byteHexChars_flatten_length l

/-! ## Claim theorems -/

/-- C1: for every custodial-wallet-batch send intent exactly one of the three
dispatch paths fires, with precedence `feesCovered` over `signatureId` over
the local build: a present `feesCovered` field routes to the hosted-API batch
generation (and the local build is never invoked), else a present
`signatureId` routes to the KMS `GasPumpService` path, and only when neither
is present is a local unsigned transaction built and handed to the broadcast
function. -/
theorem custodialWalletBatch_dispatch
    (prepare : ChainGenerateCustodialWalletBatch → String)
    (body : ChainGenerateCustodialWalletBatch) :
    (custodialWalletBatchSend prepare body = .hostedApi ↔ body.feesCovered.isSome = true) ∧
    (custodialWalletBatchSend prepare body = .kms ↔
      body.feesCovered.isSome = false ∧ body.signatureId.isSome = true) ∧
    (body.feesCovered.isSome = false → body.signatureId.isSome = false →
      custodialWalletBatchSend prepare body = .localBroadcast (prepare body)) ∧
    (body.feesCovered.isSome = true ∨ body.signatureId.isSome = true →
      ∀ prepare2 : ChainGenerateCustodialWalletBatch → String,
        custodialWalletBatchSend prepare body = custodialWalletBatchSend prepare2 body) := by
  cases hf : body.feesCovered.isSome <;> cases hs : body.signatureId.isSome <;>
    simp [custodialWalletBatchSend, hf, hs]

/-- C1 witness: on a body carrying `feesCovered` the hosted-API path fires;
with only `signatureId` the KMS path fires; with neither, the local build. -/
theorem custodialWalletBatch_dispatch_witness :
    custodialWalletBatchSend (fun _ => "txA")
      { feesCovered := some true, signatureId := some "sig", owner := "o" } = .hostedApi ∧
    custodialWalletBatchSend (fun _ => "txB")
      { feesCovered := none, signatureId := some "sig", owner := "o" } = .kms ∧
    custodialWalletBatchSend (fun _ => "txC")
      { feesCovered := none, signatureId := none, owner := "o" } = .localBroadcast "txC" := by
  refine ⟨?_, ?_, ?_⟩
  · exact (custodialWalletBatch_dispatch (fun _ => "txA") _).1.mpr rfl
  · exact (custodialWalletBatch_dispatch (fun _ => "txB") _).2.1.mpr ⟨rfl, rfl⟩
  · exact (custodialWalletBatch_dispatch (fun _ => "txC") _).2.2.1 rfl rfl

/-- C9: the XRP KMS sign operation raises `KMS_CHAIN_MISMATCH` exactly when
the pending transaction's chain is not XRP, and otherwise returns the vendor
signing call's result on the serialized transaction and secret. -/
theorem xrp_kms_sign_chain_check (vendorSign : String → String → String)
    (tx : PendingTransaction) (secret : String) :
    (xrpKmsSign vendorSign tx secret = .error .KMS_CHAIN_MISMATCH ↔ tx.chain ≠ "XRP") ∧
    (tx.chain = "XRP" →
      xrpKmsSign vendorSign tx secret = .ok (vendorSign tx.serializedTransaction secret)) := by
  by_cases h : tx.chain = "XRP" <;> simp [xrpKmsSign, h]

/-- C9 witness: on an XRP transaction the vendor sign result is returned; on
an ETH transaction the chain-mismatch error is raised. -/
theorem xrp_kms_sign_chain_check_witness :
    xrpKmsSign (fun s k => s ++ k) { chain := "XRP", serializedTransaction := "rawtx" } "shh" =
      .ok ("rawtx" ++ "shh") ∧
    xrpKmsSign (fun s k => s ++ k) { chain := "ETH", serializedTransaction := "rawtx" } "shh" =
      .error .KMS_CHAIN_MISMATCH :=
  ⟨(xrp_kms_sign_chain_check (fun s k => s ++ k) _ "shh").2 rfl,
   (xrp_kms_sign_chain_check (fun s k => s ++ k) _ "shh").1.mpr (by decide)⟩

/-- C10: after the custodial approve preparation runs, the body's `amount`
field is absent and every other field of the body is unchanged. -/
theorem approve_frame_effect (decimalsOf : String → Nat)
    (body : ChainApproveCustodialTransfer) :
    (approveFromCustodialWallet decimalsOf body).bodyAfter.amount = none ∧
    (approveFromCustodialWallet decimalsOf body).bodyAfter.tokenAddress = body.tokenAddress ∧
    (approveFromCustodialWallet decimalsOf body).bodyAfter.contractType = body.contractType ∧
    (approveFromCustodialWallet decimalsOf body).bodyAfter.spender = body.spender ∧
    (approveFromCustodialWallet decimalsOf body).bodyAfter.tokenId = body.tokenId ∧
    (approveFromCustodialWallet decimalsOf body).bodyAfter.custodialAddress =
      body.custodialAddress ∧
    (approveFromCustodialWallet decimalsOf body).bodyAfter.signatureId = body.signatureId ∧
    (approveFromCustodialWallet decimalsOf body).bodyAfter.fromPrivateKey =
      body.fromPrivateKey :=
  ⟨rfl, rfl, rfl, rfl, rfl, rfl, rfl, rfl⟩

/-- C5: a custodial transfer, batch transfer or approve send intent with a
truthy `signatureId` is routed exclusively to the KMS dispatch path, and the
result does not depend on the local preparation function (so no local
transaction is built and the broadcast function is never invoked). -/
theorem custodialSend_kms_exclusive
    (p1 p1eq : ChainTransferCustodialWallet → String) (b1 : ChainTransferCustodialWallet)
    (p2 p2eq : ChainBatchTransferCustodialWallet → String)
    (b2 : ChainBatchTransferCustodialWallet)
    (p3 p3eq : ChainApproveCustodialTransfer → String) (b3 : ChainApproveCustodialTransfer) :
    (truthyStr b1.signatureId = true →
      transferFromCustodialWalletSend p1 b1 = .kms ∧
      transferFromCustodialWalletSend p1 b1 = transferFromCustodialWalletSend p1eq b1) ∧
    (truthyStr b2.signatureId = true →
      batchTransferFromCustodialWalletSend p2 b2 = .kms ∧
      batchTransferFromCustodialWalletSend p2 b2 = batchTransferFromCustodialWalletSend p2eq b2) ∧
    (truthyStr b3.signatureId = true →
      approveFromCustodialWalletSend p3 b3 = .kms ∧
      approveFromCustodialWalletSend p3 b3 = approveFromCustodialWalletSend p3eq b3) := by
  refine ⟨fun h => ?_, fun h => ?_, fun h => ?_⟩ <;>
    simp [transferFromCustodialWalletSend, batchTransferFromCustodialWalletSend,
      approveFromCustodialWalletSend, h]

/-- C5 witness: concrete bodies with `signatureId` set route to KMS on all
three send operations. -/
theorem custodialSend_kms_exclusive_witness :
    transferFromCustodialWalletSend (fun _ => "tx1")
      { signatureId := some "sid", address := "a", recipient := "r" } = .kms ∧
    batchTransferFromCustodialWalletSend (fun _ => "tx2")
      { signatureId := some "sid", address := "a" } = .kms ∧
    approveFromCustodialWalletSend (fun _ => "tx3")
      { tokenAddress := "t", contractType := 0, spender := "s", amount := some 1,
        tokenId := none, custodialAddress := "c", signatureId := some "sid",
        fromPrivateKey := none } = .kms := by
  refine ⟨?_, ?_, ?_⟩
  · exact ((custodialSend_kms_exclusive (fun _ => "tx1") (fun _ => "tx1") _
      (fun _ => "") (fun _ => "") { signatureId := none, address := "" }
      (fun _ => "") (fun _ => "")
      { tokenAddress := "", contractType := 0, spender := "", amount := none,
        tokenId := none, custodialAddress := "", signatureId := none,
        fromPrivateKey := none }).1 (by decide)).1
  · exact ((custodialSend_kms_exclusive (fun _ => "") (fun _ => "")
      { signatureId := none, address := "", recipient := "" }
      (fun _ => "tx2") (fun _ => "tx2") _ (fun _ => "") (fun _ => "")
      { tokenAddress := "", contractType := 0, spender := "", amount := none,
        tokenId := none, custodialAddress := "", signatureId := none,
        fromPrivateKey := none }).2.1 (by decide)).1
  · exact ((custodialSend_kms_exclusive (fun _ => "") (fun _ => "")
      { signatureId := none, address := "", recipient := "" }
      (fun _ => "") (fun _ => "") { signatureId := none, address := "" }
      (fun _ => "tx3") (fun _ => "tx3") _).2.2 (by decide)).1

/-- C2 counterexample: the claim asserts that a present mnemonic with
`index >= 0` derives a key, but at `index = 0` (present, nonnegative) the
code's `mnemonic && index && index >= 0` guard is falsy and resolution
throws `FLOW_MISSING_MNEMONIC` instead of returning the derived key. -/
theorem getPrivateKey_index_zero_cex :
    getPrivateKey (fun m _ => m)
      { mnemonic := some "abandon ability", index := some 0, privateKey := none,
        signatureId := none } = .error .FLOW_MISSING_MNEMONIC ∧
    getPrivateKey (fun m _ => m)
      { mnemonic := some "abandon ability", index := some 0, privateKey := none,
        signatureId := none } ≠ .ok "abandon ability" ∧
    (0 : Int) ≥ 0 := by
  refine ⟨rfl, fun h => ?_, by decide⟩
  exact nomatch h

/-- C2 (amended): a truthy (non-empty) `privateKey` is returned directly,
taking precedence over any mnemonic; else with a truthy mnemonic and a
truthy (nonzero) index that is also nonnegative — i.e. `index >= 1` — the
key is derived deterministically from mnemonic and index; in every other
case resolution fails with the missing-key-material error
`FLOW_MISSING_MNEMONIC` and never returns a value. -/
theorem getPrivateKey_resolution (derive : String → Int → String)
    (body : FlowKeyMaterial) :
    (truthyStr body.privateKey = true →
      getPrivateKey derive body = .ok (body.privateKey.getD "")) ∧
    (truthyStr body.privateKey = false → truthyStr body.mnemonic = true →
      truthyInt body.index = true → 0 ≤ body.index.getD 0 →
      getPrivateKey derive body = .ok (derive (body.mnemonic.getD "") (body.index.getD 0))) ∧
    (truthyStr body.privateKey = false →
      (truthyStr body.mnemonic = false ∨ truthyInt body.index = false ∨
        ¬ 0 ≤ body.index.getD 0) →
      getPrivateKey derive body = .error .FLOW_MISSING_MNEMONIC) := by
  refine ⟨fun hpk => ?_, fun hpk hm hi hge => ?_, fun hpk hcon => ?_⟩
  · simp [getPrivateKey, hpk]
  · simp [getPrivateKey, hpk, hm, hi, hge]
  · rcases hcon with h1 | h1 | h1 <;> simp [getPrivateKey, hpk, h1]

/-- C2 witness: a raw private key wins even when a mnemonic is present; a
mnemonic with index 1 derives; an empty body fails with the
missing-material error. -/
theorem getPrivateKey_resolution_witness :
    getPrivateKey (fun m _ => m)
      { mnemonic := some "word list", index := some 3, privateKey := some "rawkey",
        signatureId := none } = .ok "rawkey" ∧
    getPrivateKey (fun m _ => m)
      { mnemonic := some "word list", index := some 1, privateKey := none,
        signatureId := none } = .ok "word list" ∧
    getPrivateKey (fun m _ => m)
      { mnemonic := none, index := none, privateKey := none,
        signatureId := none } = .error .FLOW_MISSING_MNEMONIC := by
  refine ⟨?_, ?_, ?_⟩
  · exact (getPrivateKey_resolution (fun m _ => m) _).1 (by decide)
  · exact (getPrivateKey_resolution (fun m _ => m) _).2.1 (by decide) (by decide)
      (by decide) (by decide)
  · exact (getPrivateKey_resolution (fun m _ => m) _).2.2 (by decide) (.inl (by decide))

/-- C4 counterexample: on the submission-error path, when the proposer-key
cleanup broadcast call itself throws, the registered entry is NOT removed —
the call throws with the broadcast error while the registration survives,
contradicting removal on every exit path. -/
theorem sendTransactionSubmit_leak_cex :
    (sendTransactionSubmit (some "FLOW_PROPOSAL_KEY_1660000000000") (some 5)
        (.threw "access node rejected") (.sealedOk []) false).2 = some 5 ∧
    (sendTransactionSubmit (some "FLOW_PROPOSAL_KEY_1660000000000") (some 5)
        (.threw "access node rejected") (.sealedOk []) false).1 =
      .error (.wrap "cleanup broadcast failed") ∧
    (some 5 : Option Int) ≠ none :=
  ⟨rfl, rfl, by decide⟩

/-- C4 (amended): whenever a per-call proposer-key registration exists and a
`keyHash` was passed, `_sendTransaction` removes the entry on every exit
path — successful sealing, chain error during confirmation, and submission
error — provided the proposer-key cleanup broadcast call itself succeeds;
if that cleanup call throws, the deletion is skipped and the entry
persists. -/
theorem sendTransactionSubmit_cleanup (kh : String) (env0 : Option Int)
    (sendOutcome : FclSendOutcome) (sealOutcome : SealOutcome) :
    (sendTransactionSubmit (some kh) env0 sendOutcome sealOutcome true).2 = none := by
  cases sendOutcome <;> rfl

/-- C8 counterexample: a transfer body whose amount is non-numeric is NOT
rejected with a typed SDK error — the builder succeeds and silently emits
the malformed amount argument `"NaN"`. -/
theorem flow_transfer_no_error_cex :
    sendTransaction (fun m _ => m) true
      { mnemonic := none, index := none, privateKey := some "a1b2", signatureId := none,
        «to» := "0xabc", amount := .nonNumeric, currency := "FLOW", account := "0xacc" } =
      .ok (transferTxParams true
        { mnemonic := none, index := none, privateKey := some "a1b2", signatureId := none,
          «to» := "0xabc", amount := .nonNumeric, currency := "FLOW", account := "0xacc" }) ∧
    (transferTxParams true
      { mnemonic := none, index := none, privateKey := some "a1b2", signatureId := none,
        «to» := "0xabc", amount := .nonNumeric, currency := "FLOW",
        account := "0xacc" }).args.head? = some { type := "UFix64", value := "NaN" } := by
  exact ⟨by with_unfolding_all rfl, by with_unfolding_all rfl⟩

/-- C8 (amended): the transfer builder performs no validation of the amount
field: with a truthy (present, non-empty) `privateKey` it succeeds for every
amount, a non-numeric amount yielding the literal argument value "NaN" and a
negative amount yielding a negative fixed-8 argument (e.g. -1 formats as
"-1.00000000") — the typed failures in this path concern only key material
(`FLOW_MISSING_MNEMONIC` from resolution, `FLOW_MISSING_PRIVATE_KEY` for a
falsy resolved key), never the amount. -/
theorem flow_transfer_amount_unvalidated (derive : String → Int → String)
    (testnet : Bool) (body : TransferFlow)
    (hpk : truthyStr body.privateKey = true) :
    sendTransaction derive testnet body = .ok (transferTxParams testnet body) ∧
    (body.amount = .nonNumeric →
      (transferTxParams testnet body).args.head? =
        some { type := "UFix64", value := "NaN" }) ∧
    toFixed8 (parseFloatJs (.num (-1))) = "-1.00000000" := by
  refine ⟨?_, fun ha => ?_, by with_unfolding_all rfl⟩
  · have hne : body.privateKey.getD "" ≠ "" := by
      cases h : body.privateKey with
      | none => rw [h] at hpk; exact absurd hpk (by simp [truthyStr])
      | some s => rw [h] at hpk; simpa [truthyStr] using hpk
    simp [sendTransaction, getPrivateKey, hpk, hne]
  · simp [transferTxParams, ha, parseFloatJs, toFixed8]

/-- C8 witness: a concrete negative-amount transfer builds successfully with
no typed error. -/
theorem flow_transfer_amount_unvalidated_witness :
    sendTransaction (fun m _ => m) false
      { mnemonic := none, index := none, privateKey := some "raw", signatureId := none,
        «to» := "0xd", amount := .num (-1), currency := "FUSD", account := "0xa" } =
      .ok (transferTxParams false
        { mnemonic := none, index := none, privateKey := some "raw", signatureId := none,
          «to» := "0xd", amount := .num (-1), currency := "FUSD", account := "0xa" }) :=
  (flow_transfer_amount_unvalidated (fun m _ => m) false _ (by decide)).1

/-- C3 counterexample: on a fungible-token approve (contractType 0) whose
amount times `10^decimals` is not an integer (amount 0.5, token with 0
decimals), the encoded parameter is BigNumber's exact fractional hex
rendering `0x0.8`, not the claimed `floor` hex `0x0`. -/
theorem approve_amount_floor_cex :
    (approveFromCustodialWallet (fun _ => 0)
      { tokenAddress := "0xToken", contractType := 0, spender := "0xSpender",
        amount := some (1 / 2), tokenId := some 1, custodialAddress := "0xCust",
        signatureId := none, fromPrivateKey := none }).params[3]? =
      some (.str "0x0.8") ∧
    ("0x0.8" : String) ≠ "0x" ++ hexNat (⌊(1 / 2 : ℚ) * (10 : ℚ) ^ (0 : Nat)⌋).toNat := by
  constructor
  · with_unfolding_all rfl
  · with_unfolding_all decide

/-- C3 (amended): for fungible-token approve intents (contractType 0) the
encoded amount parameter is `0x` followed by BigNumber's base-16 rendering
of `amount * 10^decimals` with decimals fetched from the token contract;
this equals `floor(amount * 10^decimals)` in hex exactly when the product is
an integer, while a fractional product is rendered with a fractional hex
part instead of being floored; for every non-fungible contract type,
decimals is 0 and the amount is not scaled. -/
theorem approve_amount_encoding (decimalsOf : String → Nat)
    (body : ChainApproveCustodialTransfer) :
    (body.contractType = 0 →
      (approveFromCustodialWallet decimalsOf body).params[3]? =
        some (.str ("0x" ++
          bnToString16 ((body.amount.getD 0) * (10 : ℚ) ^ decimalsOf body.tokenAddress))) ∧
      ∀ n : Nat, (body.amount.getD 0) * (10 : ℚ) ^ decimalsOf body.tokenAddress = (n : ℚ) →
        (approveFromCustodialWallet decimalsOf body).params[3]? =
          some (.str ("0x" ++ hexNat n))) ∧
    (body.contractType ≠ 0 →
      (approveFromCustodialWallet decimalsOf body).params[3]? =
        some (.str ("0x" ++ bnToString16 (body.amount.getD 0)))) := by
  constructor
  · intro h0
    constructor
    · simp [approveFromCustodialWallet, h0]
    · intro n hn
      simp [approveFromCustodialWallet, h0, hn, bnToString16_natCast]
  · intro h0
    simp [approveFromCustodialWallet, h0]

/-- C3 witness: a fungible token with 2 decimals scales amount 3 to the hex
of 300; a non-fungible body leaves amount 5 unscaled. -/
theorem approve_amount_encoding_witness :
    (approveFromCustodialWallet (fun _ => 2)
      { tokenAddress := "0xT", contractType := 0, spender := "0xS",
        amount := some 3, tokenId := none, custodialAddress := "0xC",
        signatureId := none, fromPrivateKey := none }).params[3]? =
      some (.str ("0x" ++ hexNat 300)) ∧
    (approveFromCustodialWallet (fun _ => 2)
      { tokenAddress := "0xT", contractType := 1, spender := "0xS",
        amount := some 5, tokenId := some 7, custodialAddress := "0xC",
        signatureId := none, fromPrivateKey := none }).params[3]? =
      some (.str ("0x" ++ bnToString16 ((5 : ℚ)))) := by
  constructor
  · exact ((approve_amount_encoding (fun _ => 2) _).1 rfl).2 300 (by with_unfolding_all rfl)
  · exact (approve_amount_encoding (fun _ => 2) _).2 (by decide)

/-- C6 counterexample: an 8-decimal amount exceeding binary64 precision is
altered by the `parseFloat` round-trip: the built amount argument is
`"12345678901234.12304688"` for the amount `12345678901234.12345678`, a
rounding loss. -/
theorem flow_transfer_amount_precision_cex :
    (transferTxParams true
      { mnemonic := none, index := none, privateKey := some "raw", signatureId := none,
        «to» := "0xABC", amount := .num (1234567890123412345678 / 100000000),
        currency := "FLOW", account := "0xACC" }).args.head? =
      some { type := "UFix64", value := "12345678901234.12304688" } ∧
    ("12345678901234.12304688" : String) ≠ "12345678901234.12345678" := by
  constructor
  · with_unfolding_all rfl
  · decide

/-- C6 (amended): the built Flow transfer's amount argument is
`parseFloat(amount).toFixed(8)` — the amount parsed as an IEEE-754 binary64
number and formatted to exactly 8 decimal places, which reproduces the
example `"1.23456789"` exactly but can round amounts beyond double
precision — and the token address/name/storage constants come from the
testnet table when the testnet flag is set and the mainnet table otherwise,
FlowToken constants for currency FLOW and FUSD constants otherwise. -/
theorem flow_transfer_build (testnet : Bool) (body : TransferFlow) :
    ((transferTxParams testnet body).args =
      [ { type := "UFix64", value := toFixed8 (parseFloatJs body.amount) },
        { type := "Address", value := body.«to» } ]) ∧
    (body.currency = "FLOW" →
      (transferTxParams testnet body).tokenAddress =
        (if testnet then FLOW_TESTNET_ADDRESSES.FlowToken
         else FLOW_MAINNET_ADDRESSES.FlowToken) ∧
      (transferTxParams testnet body).tokenName = "FlowToken" ∧
      (transferTxParams testnet body).tokenStorage = "flowToken") ∧
    (body.currency ≠ "FLOW" →
      (transferTxParams testnet body).tokenAddress =
        (if testnet then FLOW_TESTNET_ADDRESSES.FUSD else FLOW_MAINNET_ADDRESSES.FUSD) ∧
      (transferTxParams testnet body).tokenName = "FUSD" ∧
      (transferTxParams testnet body).tokenStorage = "fusd") ∧
    toFixed8 (parseFloatJs (.num (123456789 / 100000000))) = "1.23456789" := by
  refine ⟨rfl, fun h => ?_, fun h => ?_, by with_unfolding_all rfl⟩ <;>
    simp [transferTxParams, h]

/-- C6 witness: a testnet FLOW transfer selects the testnet FlowToken
constant and formats `1.23456789` losslessly; a mainnet non-FLOW transfer
selects the mainnet FUSD constant. -/
theorem flow_transfer_build_witness :
    (transferTxParams true
      { mnemonic := none, index := none, privateKey := some "p", signatureId := none,
        «to» := "0xABC", amount := .num (123456789 / 100000000), currency := "FLOW",
        account := "0xACC" }).tokenAddress = FLOW_TESTNET_ADDRESSES.FlowToken ∧
    (transferTxParams false
      { mnemonic := none, index := none, privateKey := some "p", signatureId := none,
        «to» := "0xD", amount := .num 2, currency := "FUSD",
        account := "0xE" }).tokenAddress = FLOW_MAINNET_ADDRESSES.FUSD := by
  constructor
  · exact ((flow_transfer_build true _).2.1 rfl).1
  · exact ((flow_transfer_build false _).2.2.1 (by decide)).1

/-- C7: the Flow signer returns the lowercase hex encoding of the
ECDSA-secp256k1 signature over the SHA3-256 digest of the message, encoded
as the 32-byte big-endian `r` concatenated with the 32-byte big-endian `s`
— a 128-character hex string from which both values decode back. -/
theorem flow_sign_encoding (ecSign : String → List Nat → Nat × Nat)
    (sha3 : List Nat → List Nat) (pk : String) (msg : List Nat)
    (hr : (ecSign pk (sha3 msg)).1 < 256 ^ 32) (hs : (ecSign pk (sha3 msg)).2 < 256 ^ 32) :
    flowSign ecSign sha3 pk msg =
      bytesToHex (beBytes 32 (ecSign pk (sha3 msg)).1 ++
        beBytes 32 (ecSign pk (sha3 msg)).2) ∧
    (flowSign ecSign sha3 pk msg).length = 128 ∧
    natOfBeBytes (beBytes 32 (ecSign pk (sha3 msg)).1) = (ecSign pk (sha3 msg)).1 ∧
    natOfBeBytes (beBytes 32 (ecSign pk (sha3 msg)).2) = (ecSign pk (sha3 msg)).2 := by
  refine ⟨rfl, ?_, natOfBeBytes_beBytes 32 _ hr, natOfBeBytes_beBytes 32 _ hs⟩
  show (bytesToHex (beBytes 32 (ecSign pk (sha3 msg)).1 ++
    beBytes 32 (ecSign pk (sha3 msg)).2)).length = 128
  rw [bytesToHex_length, List.length_append, beBytes_length, beBytes_length]

/-- C7 witness: at a concrete signing primitive the format and length hold. -/
theorem flow_sign_encoding_witness :
    flowSign (fun _ _ => (1, 255)) (fun l => l) "pk" [1, 2] =
      bytesToHex (beBytes 32 1 ++ beBytes 32 255) ∧
    (flowSign (fun _ _ => (1, 255)) (fun l => l) "pk" [1, 2]).length = 128 := by
  have h := flow_sign_encoding (fun _ _ => (1, 255)) (fun l => l) "pk" [1, 2]
    (by norm_num) (by norm_num)
  exact ⟨h.1, h.2.1⟩

end Tatum
